import Mathlib

/-!
Shallow embedding of the response-normalization core of the
AMC-connect backend (`src/model.py`): the `MunicipalIssueDetector`
class and the `detect_municipal_issue` entry point.

The image loading, prompt construction and the Gemini call are external
effects; they are abstracted as an `Except`-valued input (`.error e`
models the Python exception `e` raised by that stage, `.ok raw` models a
reply whose `response.text` is `raw`).  Everything from `response.text`
onwards (model.py lines 197-232, 234-258, 260-272, 275-290) is embedded
as executable Lean functions.  The current-time value
`datetime.now().isoformat()` is abstracted as a string parameter `ts`.
-/

set_option maxRecDepth 4000

namespace AMC

/-! ## Python data values

Values produced by `json.loads`.  Python distinguishes `int` and
`float`; floats are modelled as exact rationals (the inputs relevant
here are decimal literals; binary rounding of CPython floats is not
modelled, nor are the nonstandard `NaN`/`Infinity` literals). -/

inductive Json where
  | null
  | bool (b : Bool)
  | int (n : Int)
  | float (q : Rat)
  | str (s : String)
  | arr (elems : List Json)
  | obj (entries : List (String × Json))

/-! ## Python dict operations on an association list

A parsed JSON object is a Python `dict`: insertion-ordered, unique keys.
`getKey` is `d[k]` / `k in d`, `setKey` is `d[k] = v` (overwrite in
place if the key exists, else append), `eraseKey` removes a key (used
only in specifications, to compare records up to `timestamp`). -/

def getKey : List (String × Json) → String → Option Json
  | [], _ => none
  | (k', v) :: rest, k => if k' == k then some v else getKey rest k

def setKey : List (String × Json) → String → Json → List (String × Json)
  | [], k, v => [(k, v)]
  | (k', v') :: rest, k, v =>
      if k' == k then (k, v) :: rest else (k', v') :: setKey rest k v

def eraseKey : List (String × Json) → String → List (String × Json)
  | [], _ => []
  | (k', v') :: rest, k =>
      if k' == k then eraseKey rest k else (k', v') :: eraseKey rest k

/-! ## Python string primitives

`str.strip`, `str.lower`, slicing, `in` (substring containment),
`startswith` / `endswith`, modelled on the character list underlying
the string.  `str.lower` is modelled for ASCII letters (the only
letters in the texts compared here); `str.strip` strips the six Python
whitespace characters. -/

def pySpace (c : Char) : Bool :=
  c == ' ' || c == '\t' || c == '\n' || c == '\r' || c == '\x0b' || c == '\x0c'

def pyStrip (s : String) : String :=
  String.mk (((s.data.dropWhile pySpace).reverse.dropWhile pySpace).reverse)

def pyLower (s : String) : String :=
  String.mk (s.data.map Char.toLower)

def pyTake (s : String) (n : Nat) : String :=
  String.mk (s.data.take n)

def pyDrop (s : String) (n : Nat) : String :=
  String.mk (s.data.drop n)

def pyDropRight (s : String) (n : Nat) : String :=
  String.mk (s.data.take (s.data.length - n))

def pyLen (s : String) : Nat :=
  s.data.length

def listIsInfix (needle : List Char) : List Char → Bool
  | [] => needle.isEmpty
  | c :: rest => needle.isPrefixOf (c :: rest) || listIsInfix needle rest

/-- Python `needle in hay` on strings: substring containment. -/
def strContains (hay needle : String) : Bool :=
  listIsInfix needle.data hay.data

def pyStartsWith (s pre : String) : Bool :=
  pre.data.isPrefixOf s.data

def pyEndsWith (s suf : String) : Bool :=
  suf.data.reverse.isPrefixOf s.data.reverse

/-! ## `json.loads`

An executable model of Python `json.loads` (strict mode): a JSON value
with surrounding whitespace and nothing else, or failure
(`JSONDecodeError`, modelled as `none`).  Recursion is fuelled; the
fuel supplied by `json_loads` is an upper bound on the recursion ever
needed for the given input. -/

def skipWs : List Char → List Char
  | [] => []
  | c :: rest => if c == ' ' || c == '\t' || c == '\n' || c == '\r' then skipWs rest else c :: rest

def hexVal (c : Char) : Option Nat :=
  if '0' ≤ c ∧ c ≤ '9' then some (c.toNat - '0'.toNat)
  else if 'a' ≤ c ∧ c ≤ 'f' then some (c.toNat - 'a'.toNat + 10)
  else if 'A' ≤ c ∧ c ≤ 'F' then some (c.toNat - 'A'.toNat + 10)
  else none

/-- Body of a JSON string after the opening quote; returns the decoded
characters and the remaining input after the closing quote.  Unicode
escapes are decoded as single code points (surrogate-pair recombination
is not modelled). -/
def parseStringBody (fuel : Nat) (cs : List Char) : Option (List Char × List Char) :=
  match fuel with
  | 0 => none
  | f + 1 =>
    match cs with
    | [] => none
    | c :: rest =>
      if c == '\x22' then some ([], rest)
      else if c == '\\' then
        match rest with
        | [] => none
        | e :: rest2 =>
          let dec : Option (Char × List Char) :=
            if e == '\x22' then some ('\x22', rest2)
            else if e == '\\' then some ('\\', rest2)
            else if e == '/' then some ('/', rest2)
            else if e == 'b' then some ('\x08', rest2)
            else if e == 'f' then some ('\x0c', rest2)
            else if e == 'n' then some ('\n', rest2)
            else if e == 'r' then some ('\r', rest2)
            else if e == 't' then some ('\t', rest2)
            else if e == 'u' then
              match rest2 with
              | h1 :: h2 :: h3 :: h4 :: rest3 =>
                match hexVal h1, hexVal h2, hexVal h3, hexVal h4 with
                | some a, some b, some c3, some d =>
                    some (Char.ofNat (((a * 16 + b) * 16 + c3) * 16 + d), rest3)
                | _, _, _, _ => none
              | _ => none
            else none
          match dec with
          | none => none
          | some (ch, rest3) =>
            match parseStringBody f rest3 with
            | none => none
            | some (body, rest4) => some (ch :: body, rest4)
      else if c.toNat < 32 then none
      else
        match parseStringBody f rest with
        | none => none
        | some (body, rest4) => some (c :: body, rest4)

def digitsToNat (ds : List Char) : Nat :=
  ds.foldl (fun acc c => acc * 10 + (c.toNat - '0'.toNat)) 0

/-- JSON number at the head of the input (grammar of RFC 8259, the one
`json.loads` uses): optional minus, integer part without leading
zeros, optional fraction, optional exponent.  A number with neither
fraction nor exponent is a Python `int`, otherwise a `float`. -/
def parseNumber (cs : List Char) : Option (Json × List Char) :=
  let (neg, cs1) :=
    match cs with
    | '-' :: t => (true, t)
    | _ => (false, cs)
  let ipart : Option (List Char × List Char) :=
    match cs1 with
    | '0' :: t => some (['0'], t)
    | c :: t => if c.isDigit then some (c :: t.takeWhile Char.isDigit, t.dropWhile Char.isDigit) else none
    | [] => none
  match ipart with
  | none => none
  | some (ids, cs2) =>
    let fpart : Option (List Char × List Char) :=
      match cs2 with
      | '.' :: t =>
        match t.takeWhile Char.isDigit with
        | [] => none
        | fds => some (fds, t.dropWhile Char.isDigit)
      | _ => some ([], cs2)
    match fpart with
    | none => none
    | some (fds, cs3) =>
      let epart : Option (Option (Bool × List Char) × List Char) :=
        match cs3 with
        | e :: t =>
          if e == 'e' || e == 'E' then
            let (eneg, t2) :=
              match t with
              | '+' :: t' => (false, t')
              | '-' :: t' => (true, t')
              | _ => (false, t)
            match t2.takeWhile Char.isDigit with
            | [] => none
            | eds => some (some (eneg, eds), t2.dropWhile Char.isDigit)
          else some (none, cs3)
        | [] => some (none, cs3)
      match epart with
      | none => none
      | some (exp?, cs4) =>
        let mantissa : Int := (if neg then -1 else 1) * (digitsToNat (ids ++ fds) : Int)
        match exp?, fds with
        | none, [] => some (.int mantissa, cs4)
        | _, _ =>
          let e10 : Int :=
            (match exp? with
             | none => 0
             | some (eneg, eds) => (if eneg then -1 else 1) * (digitsToNat eds : Int))
            - (fds.length : Int)
          some (.float ((mantissa : Rat) * (10 : Rat) ^ e10), cs4)

mutual

/-- JSON value at the head of the input (leading whitespace allowed). -/
def parseVal (fuel : Nat) (cs : List Char) : Option (Json × List Char) :=
  match fuel with
  | 0 => none
  | f + 1 =>
    match skipWs cs with
    | [] => none
    | c :: rest =>
      if c == '\x22' then
        match parseStringBody (rest.length + 1) rest with
        | none => none
        | some (body, rest2) => some (.str (String.mk body), rest2)
      else if c == '\x7b' then
        match skipWs rest with
        | '\x7d' :: rest2 => some (.obj [], rest2)
        | rest2 => parseMembers f rest2 []
      else if c == '[' then
        match skipWs rest with
        | ']' :: rest2 => some (.arr [], rest2)
        | rest2 => parseItems f rest2
      else if c == 't' then
        match rest with
        | 'r' :: 'u' :: 'e' :: rest2 => some (.bool true, rest2)
        | _ => none
      else if c == 'f' then
        match rest with
        | 'a' :: 'l' :: 's' :: 'e' :: rest2 => some (.bool false, rest2)
        | _ => none
      else if c == 'n' then
        match rest with
        | 'u' :: 'l' :: 'l' :: rest2 => some (.null, rest2)
        | _ => none
      else parseNumber (c :: rest)

/-- One or more comma-separated array items, then the closing bracket. -/
def parseItems (fuel : Nat) (cs : List Char) : Option (Json × List Char) :=
  match fuel with
  | 0 => none
  | f + 1 =>
    match parseVal f cs with
    | none => none
    | some (j, rest) =>
      match skipWs rest with
      | ']' :: rest2 => some (.arr [j], rest2)
      | ',' :: rest2 =>
        match parseItems f rest2 with
        | some (.arr js, rest3) => some (.arr (j :: js), rest3)
        | _ => none
      | _ => none

/-- One or more comma-separated `"key": value` members, then the closing
brace.  A repeated key overwrites the earlier one, as in `json.loads`. -/
def parseMembers (fuel : Nat) (cs : List Char) (acc : List (String × Json)) : Option (Json × List Char) :=
  match fuel with
  | 0 => none
  | f + 1 =>
    match skipWs cs with
    | c :: rest =>
      if c == '\x22' then
        match parseStringBody (rest.length + 1) rest with
        | none => none
        | some (key, rest2) =>
          match skipWs rest2 with
          | ':' :: rest3 =>
            match parseVal f rest3 with
            | none => none
            | some (v, rest4) =>
              let acc2 := setKey acc (String.mk key) v
              match skipWs rest4 with
              | '\x7d' :: rest5 => some (.obj acc2, rest5)
              | ',' :: rest5 => parseMembers f rest5 acc2
              | _ => none
          | _ => none
      else none
    | [] => none

end

/-- Python `json.loads`: parse the whole text as one JSON value,
rejecting trailing data. -/
def json_loads (s : String) : Option Json :=
  match parseVal (2 * s.data.length + 2) s.data with
  | none => none
  | some (j, rest) => if skipWs rest == [] then some j else none

/-! ## The static taxonomy (`MunicipalIssueDetector.__init__`, lines 32-98)

`self.departments`: department name to keyword hints (the hints only
enrich the prompt text and never enter the classification logic);
`self.priority_levels`: priority name to human-readable description. -/

def departments : List (String × List String) :=
  [ ("FIRE", ["fire", "smoke", "burning", "flames", "emergency", "rescue",
      "explosion", "blaze", "scorch", "alarm", "firefighter"]),
    ("WATER", ["water", "flooding", "leak", "pipe", "drainage", "sewer", "overflow",
      "wet road", "sewage", "contaminated water", "broken pipe", "manhole"]),
    ("ELECTRIC", ["electric", "power", "cable", "wire", "pole", "outage", "transformer",
      "short circuit", "live wire", "street light", "spark"]),
    ("ROADS", ["road", "pothole", "pavement", "street", "traffic", "sign", "marking",
      "speed breaker", "signal", "barrier", "crack", "manhole cover"]),
    ("WASTE", ["garbage", "trash", "waste", "dumpster", "litter", "recycling",
      "overflowing bin", "illegal dumping", "dead animal", "open garbage"]),
    ("PARKS", ["park", "tree", "garden", "playground", "bench", "maintenance",
      "broken swing", "fallen tree", "damaged slide", "open well"]),
    ("BUILDING", ["building", "construction", "structure", "violation", "permit",
      "broken wall", "collapsed", "unsafe building", "crack", "illegal work"]),
    ("HEALTH", ["health", "sanitation", "pest", "contamination", "safety",
      "mosquito", "dirty toilet", "open defecation", "septic tank", "infection"]),
    ("TRANSPORT", ["bus stop", "shelter damage", "vehicle damage", "rail track", "sign board",
      "auto stand", "transport board", "public bus"]),
    ("TRAFFIC", ["congestion", "signal not working", "road block", "illegal parking",
      "no entry", "wrong side", "accident"]),
    ("EDUCATION", ["school", "playground", "broken desk", "unsafe building", "dirty classroom",
      "toilet school", "open wiring"]),
    ("CIVIC INFRASTRUCTURE", ["open manhole", "unfinished construction", "broken tap",
      "non-functional toilet", "public facility broken", "leaking roof"]),
    ("COMMUNICATION", ["telecom pole", "fiber wire", "damaged antenna", "communication wire",
      "internet cable", "broken signal tower"]),
    ("DISASTER RELIEF", ["earthquake", "collapsed building", "flood", "waterlogging",
      "relief camp", "emergency shelter", "rescue operation"]) ]

def priority_levels : List (String × String) :=
  [ ("CRITICAL", "Immediate attention required - public safety risk"),
    ("HIGH", "Urgent - should be addressed within 24 hours"),
    ("MEDIUM", "Important - should be addressed within 1 week"),
    ("LOW", "Minor issue - can be scheduled for routine maintenance") ]

/-- `list(self.departments.keys())` (line 242). -/
def valid_departments : List String :=
  departments.map Prod.fst

/-- `list(self.priority_levels.keys())` (line 247). -/
def valid_priorities : List String :=
  priority_levels.map Prod.fst

/-! ## Python exceptions

Exceptions that can cross the region boundaries modelled here.
`PyErr.str` is Python `str(e)`, the text interpolated into the
`"Error: Unable to analyze image - ..."` result (exact CPython message
wording for the TypeErrors varies slightly across versions; the values
below follow CPython 3.11). -/

inductive PyErr where
  | typeError (msg : String)
  | nameError (name : String)
  | other (msg : String)
deriving DecidableEq

def PyErr.str : PyErr → String
  | .typeError m => m
  | .nameError n => "name \x27" ++ n ++ "\x27 is not defined"
  | .other m => m

/-! ## `_validate_and_enhance_result` (lines 234-258) -/

/-- Membership of `result[\x27department\x27]` in `valid_departments`
(line 243): only a string equal to one of the keys passes. -/
def is_valid_department (v : Option Json) : Bool :=
  match v with
  | some (.str s) => valid_departments.contains s
  | _ => false

/-- Membership of `result[\x27priority\x27]` in `valid_priorities`
(line 248): only a string equal to one of the keys passes. -/
def is_valid_priority (v : Option Json) : Bool :=
  match v with
  | some (.str s) => valid_priorities.contains s
  | _ => false

/-- The `required_fields` list of line 236. -/
def required_fields : List String :=
  ["department", "priority", "description"]

/-- One iteration of the loop at lines 237-239: `if field not in result:
result[field] = \x27UNKNOWN\x27`. -/
def ensure_field (field : String) (r : List (String × Json)) : List (String × Json) :=
  if (getKey r field).isSome then r else setKey r field (.str "UNKNOWN")

/-- Lines 241-244: coerce an out-of-set department to `"BUILDING"`. -/
def coerce_department (r : List (String × Json)) : List (String × Json) :=
  if is_valid_department (getKey r "department") then r
  else setKey r "department" (.str "BUILDING")

/-- Lines 246-249: coerce an out-of-set priority to `"MEDIUM"`. -/
def coerce_priority (r : List (String × Json)) : List (String × Json) :=
  if is_valid_priority (getKey r "priority") then r
  else setKey r "priority" (.str "MEDIUM")

/-- Lines 235-249: the `required_fields` loop, then the department and
priority coercions. -/
def ensure_and_coerce (result : List (String × Json)) : List (String × Json) :=
  coerce_priority (coerce_department (required_fields.foldl (fun r f => ensure_field f r) result))

/-- `_validate_and_enhance_result` on a parsed `dict`: lines 235-249
(`ensure_and_coerce`) followed by lines 251-256 (stamp `timestamp` with
the current time `ts` and set `status` to `"PENDING"`). -/
def validate_and_enhance_obj (ts : String) (result : List (String × Json)) : List (String × Json) :=
  setKey (setKey (ensure_and_coerce result) "timestamp" (.str ts)) "status" (.str "PENDING")

/-- `_validate_and_enhance_result` as called on an arbitrary parse
result.  `json.loads` can return a non-dict (list, string, number,
boolean, `None`); the membership tests and item assignments of lines
237-244 then raise `TypeError`, which this method does not catch. -/
def validate_and_enhance_result (ts : String) : Json → Except PyErr (List (String × Json))
  | .obj kvs => .ok (validate_and_enhance_obj ts kvs)
  | .arr _ => .error (.typeError "list indices must be integers or slices, not str")
  | .str s =>
      if strContains s "department" && strContains s "priority" && strContains s "description" then
        .error (.typeError "string indices must be integers, not \x27str\x27")
      else
        .error (.typeError "\x27str\x27 object does not support item assignment")
  | .int _ => .error (.typeError "argument of type \x27int\x27 is not iterable")
  | .float _ => .error (.typeError "argument of type \x27float\x27 is not iterable")
  | .bool _ => .error (.typeError "argument of type \x27bool\x27 is not iterable")
  | .null => .error (.typeError "argument of type \x27NoneType\x27 is not iterable")

/-! ## `_create_fallback_response` (lines 260-272) -/

/-- The dictionary literal written at lines 261-272: the record the
fallback path is meant to return, with the description truncated to 200
characters plus an ellipsis when longer. -/
def fallback_record (ts raw : String) : List (String × Json) :=
  [ ("department", .str "BUILDING"),
    ("priority", .str "MEDIUM"),
    ("description", .str (if pyLen raw > 200 then pyTake raw 200 ++ "..." else raw)),
    ("location_details", .str "Not specified"),
    ("recommended_action", .str "Manual review required"),
    ("safety_concern", .str "Unknown"),
    ("confidence_score", .float (0.5 : Rat)),
    ("timestamp", .str ts),
    ("status", .str "PENDING"),
    ("note", .str "Fallback response - manual review recommended") ]

/-- `_create_fallback_response`.  The entries of the dictionary literal
are evaluated in order, and the `timestamp` entry evaluates
`datetime.now()` — but `datetime` is not in scope there: the sole
`from datetime import datetime` of the file, at line 252, is local to
`_validate_and_enhance_result`, and model.py has no module-level
`datetime` binding.  The call therefore always raises
`NameError: name \x27datetime\x27 is not defined` instead of returning
the `fallback_record` dictionary. -/
def create_fallback_response (_raw : String) : Except PyErr (List (String × Json)) :=
  .error (.nameError "datetime")

/-! ## `analyze_image` (lines 123-232): the response-normalization flow -/

/-- The no-issue explanation returned at lines 205 and 226 (the two
sites carry the identical string literal). -/
def nonIssueMessage : String :=
  "No Municipal Issue Detected - This appears to be a non-civic matter. Please upload images of infrastructure problems, public safety concerns, or municipal service issues."

/-- The markdown-fence stripping of lines 207-211: drop a leading
7-character `\x60\x60\x60json` marker and a trailing 3-character
`\x60\x60\x60` marker. -/
def stripFences (t : String) : String :=
  let t1 := if pyStartsWith t "```json" then pyDrop t 7 else t
  if pyEndsWith t1 "```" then pyDropRight t1 3 else t1

/-- The negative-signal keywords of line 225. -/
def negSignals : List String :=
  ["no municipal", "no civic", "not a municipal", "personal item", "non-civic"]

/-- Line 225: `any(keyword in response.text.lower() for keyword in ...)`,
applied to the original, un-stripped reply text. -/
def hasNegSignal (raw : String) : Bool :=
  negSignals.any (fun kw => strContains (pyLower raw) kw)

/-- A value `analyze_image` returns: Python gives back either a plain
string (the no-issue explanation or an error message) or a dict. -/
inductive PyResult where
  | text (s : String)
  | record (r : List (String × Json))

/-- Lines 198-228: the inner `try` over `response.text`.  `raw` is
`response.text`, `ts` the current time.  In order: the
`NON_CIVIC_ISSUE` sentinel check on the stripped text (line 203), fence
stripping (207-211), `json.loads` (214) with success going through
`_validate_and_enhance_result` (217); the `except json.JSONDecodeError`
handler (222-228) checks the original text for negative signals and
otherwise calls `_create_fallback_response`.  Exceptions other than
`JSONDecodeError` — the `TypeError` from validation and the `NameError`
from the fallback builder — escape this region as `.error`. -/
def process_response (ts raw : String) : Except PyErr PyResult :=
  let response_text := pyStrip raw
  if response_text == "NON_CIVIC_ISSUE" || strContains response_text "NON_CIVIC_ISSUE" then
    .ok (.text nonIssueMessage)
  else
    match json_loads (stripFences response_text) with
    | some result => (validate_and_enhance_result ts result).map .record
    | none =>
      if hasNegSignal raw then .ok (.text nonIssueMessage)
      else (create_fallback_response raw).map .record

/-- `analyze_image` (lines 123-232).  `step` abstracts everything up to
and including `response.text`: image resolution, the Gemini call and
reading the reply (`.error e` models an exception raised there).  The
outer `except Exception` (lines 230-232) converts every exception
escaping the body into the `"Error: Unable to analyze image - ..."`
string. -/
def analyze_image (ts : String) (step : Except PyErr String) : PyResult :=
  match step with
  | .error e => .text ("Error: Unable to analyze image - " ++ e.str)
  | .ok raw =>
    match process_response ts raw with
    | .ok r => r
    | .error e => .text ("Error: Unable to analyze image - " ++ e.str)

/-! ## `detect_municipal_issue` (lines 275-290) -/

/-- A value `detect_municipal_issue` returns: the string or dict passed
through from `analyze_image`, or the structured error object built by
its own `except` handler. -/
inductive DetectResult where
  | text (s : String)
  | record (r : List (String × Json))
  | errObj (error message : String)

/-- `detect_municipal_issue`.  `api_key` is
`os.getenv("GOOGLE_GEMINI_API_KEY")` (`none` when unset; `if not
API_KEY` also rejects an empty string).  `ctor` abstracts
`MunicipalIssueDetector(API_KEY)` (the `genai` configuration), the only
statement inside the `try` that can raise — `analyze_image` catches all
of its own exceptions — and its exceptions land in the handler of lines
286-290, producing the structured error object. -/
def detect_municipal_issue (api_key : Option String) (ctor : Except PyErr Unit)
    (ts : String) (step : Except PyErr String) : DetectResult :=
  match api_key with
  | none => .text "Error: Google Gemini API key not found."
  | some k =>
    if k == "" then .text "Error: Google Gemini API key not found."
    else
      match ctor with
      | .error e => .errObj e.str "Failed to analyze the image. Please check the URL or server logs."
      | .ok _ =>
        match analyze_image ts step with
        | .text s => .text s
        | .record r => .record r

/-- Specification helper: forget the `timestamp` field of a record
outcome, to compare two normalization results up to the creation time. -/
def stripTimestamp : Except PyErr PyResult → Except PyErr PyResult
  | .ok (.record r) => .ok (.record (eraseKey r "timestamp"))
  | x => x

/-! ## Association-list lemmas -/

theorem getKey_setKey_self (r : List (String × Json)) (k : String) (v : Json) :
    getKey (setKey r k v) k = some v := by
  induction r with
  | nil => simp [setKey, getKey]
  | cons hd t ih =>
    obtain ⟨k0, v0⟩ := hd
    by_cases h : k0 = k
    · subst h
      simp [setKey, getKey]
    · simp [setKey, getKey, h, ih]

theorem getKey_setKey_ne (r : List (String × Json)) (k k' : String) (v : Json) (h : k' ≠ k) :
    getKey (setKey r k v) k' = getKey r k' := by
  induction r with
  | nil => simp [setKey, getKey, Ne.symm h]
  | cons hd t ih =>
    obtain ⟨k0, v0⟩ := hd
    by_cases h0 : k0 = k
    · subst h0
      simp [setKey, getKey, Ne.symm h]
    · simp [setKey, getKey, h0, ih]

theorem eraseKey_setKey_self (r : List (String × Json)) (k : String) (v : Json) :
    eraseKey (setKey r k v) k = eraseKey r k := by
  induction r with
  | nil => simp [setKey, eraseKey]
  | cons hd t ih =>
    obtain ⟨k0, v0⟩ := hd
    by_cases h0 : k0 = k
    · subst h0
      simp [setKey, eraseKey]
    · simp [setKey, eraseKey, h0, ih]

theorem eraseKey_setKey_ne (r : List (String × Json)) (k k' : String) (v : Json) (h : k ≠ k') :
    eraseKey (setKey r k v) k' = setKey (eraseKey r k') k v := by
  induction r with
  | nil => simp [setKey, eraseKey, h]
  | cons hd t ih =>
    obtain ⟨k0, v0⟩ := hd
    by_cases h0 : k0 = k
    · subst h0
      simp [setKey, eraseKey, h, Ne.symm h]
    · by_cases h1 : k0 = k'
      · subst h1
        simp [setKey, eraseKey, h0, ih]
      · simp [setKey, eraseKey, h0, h1, ih]

theorem contains_iff (l : List String) (a : String) : l.contains a = true ↔ a ∈ l :=
  ⟨List.mem_of_elem_eq_true, List.elem_eq_true_of_mem⟩

/-! ## Lemmas on the validation steps -/

theorem getKey_ensure_field_ne (field k : String) (r : List (String × Json)) (h : k ≠ field) :
    getKey (ensure_field field r) k = getKey r k := by
  unfold ensure_field
  split
  · rfl
  · exact getKey_setKey_ne r field k _ h

theorem getKey_ensure_field_of_some (field : String) (r : List (String × Json)) (v : Json)
    (h : getKey r field = some v) : getKey (ensure_field field r) field = some v := by
  simp [ensure_field, h]

theorem getKey_ensure_field_of_none (field : String) (r : List (String × Json))
    (h : getKey r field = none) : getKey (ensure_field field r) field = some (.str "UNKNOWN") := by
  simp [ensure_field, h, getKey_setKey_self]

theorem getKey_coerce_department_ne (r : List (String × Json)) (k : String)
    (h : k ≠ "department") : getKey (coerce_department r) k = getKey r k := by
  unfold coerce_department
  split
  · rfl
  · exact getKey_setKey_ne r "department" k _ h

theorem getKey_coerce_priority_ne (r : List (String × Json)) (k : String)
    (h : k ≠ "priority") : getKey (coerce_priority r) k = getKey r k := by
  unfold coerce_priority
  split
  · rfl
  · exact getKey_setKey_ne r "priority" k _ h

theorem coerce_department_mem (r : List (String × Json)) :
    ∃ d, getKey (coerce_department r) "department" = some (.str d) ∧ d ∈ valid_departments := by
  unfold coerce_department
  split
  · rename_i h
    unfold is_valid_department at h
    cases hv : getKey r "department" with
    | none => rw [hv] at h; exact absurd h (by simp)
    | some j =>
      rw [hv] at h
      cases j with
      | str s => exact ⟨s, rfl, (contains_iff _ _).mp h⟩
      | null => exact absurd h (by simp)
      | bool b => exact absurd h (by simp)
      | int n => exact absurd h (by simp)
      | float q => exact absurd h (by simp)
      | arr xs => exact absurd h (by simp)
      | obj kvs => exact absurd h (by simp)
  · exact ⟨"BUILDING", getKey_setKey_self r "department" _, by decide⟩

theorem coerce_priority_mem (r : List (String × Json)) :
    ∃ p, getKey (coerce_priority r) "priority" = some (.str p) ∧ p ∈ valid_priorities := by
  unfold coerce_priority
  split
  · rename_i h
    unfold is_valid_priority at h
    cases hv : getKey r "priority" with
    | none => rw [hv] at h; exact absurd h (by simp)
    | some j =>
      rw [hv] at h
      cases j with
      | str s => exact ⟨s, rfl, (contains_iff _ _).mp h⟩
      | null => exact absurd h (by simp)
      | bool b => exact absurd h (by simp)
      | int n => exact absurd h (by simp)
      | float q => exact absurd h (by simp)
      | arr xs => exact absurd h (by simp)
      | obj kvs => exact absurd h (by simp)
  · exact ⟨"MEDIUM", getKey_setKey_self r "priority" _, by decide⟩

theorem coerce_department_of_valid (r : List (String × Json)) (d : String)
    (hd : getKey r "department" = some (.str d)) (hmem : d ∈ valid_departments) :
    coerce_department r = r := by
  unfold coerce_department is_valid_department
  rw [hd]
  simp [hmem]

theorem coerce_priority_of_valid (r : List (String × Json)) (p : String)
    (hp : getKey r "priority" = some (.str p)) (hmem : p ∈ valid_priorities) :
    coerce_priority r = r := by
  unfold coerce_priority is_valid_priority
  rw [hp]
  simp [hmem]

theorem coerce_department_of_invalid (r : List (String × Json)) (d : String)
    (hd : getKey r "department" = some (.str d)) (hmem : d ∉ valid_departments) :
    getKey (coerce_department r) "department" = some (.str "BUILDING") := by
  unfold coerce_department is_valid_department
  rw [hd]
  simp [hmem, getKey_setKey_self]

theorem coerce_priority_of_invalid (r : List (String × Json)) (p : String)
    (hp : getKey r "priority" = some (.str p)) (hmem : p ∉ valid_priorities) :
    getKey (coerce_priority r) "priority" = some (.str "MEDIUM") := by
  unfold coerce_priority is_valid_priority
  rw [hp]
  simp [hmem, getKey_setKey_self]

theorem ensure_and_coerce_eq (result : List (String × Json)) :
    ensure_and_coerce result =
      coerce_priority (coerce_department
        (ensure_field "description" (ensure_field "priority" (ensure_field "department" result)))) := by
  rfl

theorem getKey_validate_status (ts : String) (kvs : List (String × Json)) :
    getKey (validate_and_enhance_obj ts kvs) "status" = some (.str "PENDING") :=
  getKey_setKey_self _ _ _

theorem getKey_validate_timestamp (ts : String) (kvs : List (String × Json)) :
    getKey (validate_and_enhance_obj ts kvs) "timestamp" = some (.str ts) := by
  unfold validate_and_enhance_obj
  rw [getKey_setKey_ne _ _ _ _ (by decide), getKey_setKey_self]

theorem getKey_validate_department_mem (ts : String) (kvs : List (String × Json)) :
    ∃ d, getKey (validate_and_enhance_obj ts kvs) "department" = some (.str d) ∧
      d ∈ valid_departments := by
  unfold validate_and_enhance_obj
  rw [getKey_setKey_ne _ _ _ _ (by decide), getKey_setKey_ne _ _ _ _ (by decide),
    ensure_and_coerce_eq, getKey_coerce_priority_ne _ _ (by decide)]
  exact coerce_department_mem _

theorem getKey_validate_priority_mem (ts : String) (kvs : List (String × Json)) :
    ∃ p, getKey (validate_and_enhance_obj ts kvs) "priority" = some (.str p) ∧
      p ∈ valid_priorities := by
  unfold validate_and_enhance_obj
  rw [getKey_setKey_ne _ _ _ _ (by decide), getKey_setKey_ne _ _ _ _ (by decide),
    ensure_and_coerce_eq]
  exact coerce_priority_mem _

theorem getKey_validate_other (ts : String) (kvs : List (String × Json)) (k : String)
    (h : k ∉ (["department", "priority", "description", "timestamp", "status"] : List String)) :
    getKey (validate_and_enhance_obj ts kvs) k = getKey kvs k := by
  simp only [List.mem_cons, List.not_mem_nil, or_false, not_or] at h
  obtain ⟨h1, h2, h3, h4, h5⟩ := h
  unfold validate_and_enhance_obj
  rw [getKey_setKey_ne _ _ _ _ h5, getKey_setKey_ne _ _ _ _ h4, ensure_and_coerce_eq,
    getKey_coerce_priority_ne _ _ h2, getKey_coerce_department_ne _ _ h1,
    getKey_ensure_field_ne _ _ _ h3, getKey_ensure_field_ne _ _ _ h2,
    getKey_ensure_field_ne _ _ _ h1]

theorem getKey_validate_department_of_valid (ts : String) (kvs : List (String × Json)) (d : String)
    (hd : getKey kvs "department" = some (.str d)) (hmem : d ∈ valid_departments) :
    getKey (validate_and_enhance_obj ts kvs) "department" = some (.str d) := by
  unfold validate_and_enhance_obj
  rw [getKey_setKey_ne _ _ _ _ (by decide), getKey_setKey_ne _ _ _ _ (by decide),
    ensure_and_coerce_eq, getKey_coerce_priority_ne _ _ (by decide)]
  have hE : getKey (ensure_field "description" (ensure_field "priority"
      (ensure_field "department" kvs))) "department" = some (.str d) := by
    rw [getKey_ensure_field_ne _ _ _ (by decide), getKey_ensure_field_ne _ _ _ (by decide)]
    exact getKey_ensure_field_of_some _ _ _ hd
  rw [coerce_department_of_valid _ _ hE hmem]
  exact hE

theorem getKey_validate_priority_of_valid (ts : String) (kvs : List (String × Json)) (p : String)
    (hp : getKey kvs "priority" = some (.str p)) (hmem : p ∈ valid_priorities) :
    getKey (validate_and_enhance_obj ts kvs) "priority" = some (.str p) := by
  unfold validate_and_enhance_obj
  rw [getKey_setKey_ne _ _ _ _ (by decide), getKey_setKey_ne _ _ _ _ (by decide),
    ensure_and_coerce_eq]
  have hE : getKey (coerce_department (ensure_field "description" (ensure_field "priority"
      (ensure_field "department" kvs)))) "priority" = some (.str p) := by
    rw [getKey_coerce_department_ne _ _ (by decide), getKey_ensure_field_ne _ _ _ (by decide)]
    refine getKey_ensure_field_of_some _ _ _ ?_
    rw [getKey_ensure_field_ne _ _ _ (by decide)]
    exact hp
  rw [coerce_priority_of_valid _ _ hE hmem]
  exact hE

theorem getKey_validate_description_of_some (ts : String) (kvs : List (String × Json)) (v : Json)
    (h : getKey kvs "description" = some v) :
    getKey (validate_and_enhance_obj ts kvs) "description" = some v := by
  unfold validate_and_enhance_obj
  rw [getKey_setKey_ne _ _ _ _ (by decide), getKey_setKey_ne _ _ _ _ (by decide),
    ensure_and_coerce_eq, getKey_coerce_priority_ne _ _ (by decide),
    getKey_coerce_department_ne _ _ (by decide)]
  refine getKey_ensure_field_of_some _ _ _ ?_
  rw [getKey_ensure_field_ne _ _ _ (by decide), getKey_ensure_field_ne _ _ _ (by decide)]
  exact h

theorem getKey_validate_department_of_none (ts : String) (kvs : List (String × Json))
    (h : getKey kvs "department" = none) :
    getKey (validate_and_enhance_obj ts kvs) "department" = some (.str "BUILDING") := by
  unfold validate_and_enhance_obj
  rw [getKey_setKey_ne _ _ _ _ (by decide), getKey_setKey_ne _ _ _ _ (by decide),
    ensure_and_coerce_eq, getKey_coerce_priority_ne _ _ (by decide)]
  have hE : getKey (ensure_field "description" (ensure_field "priority"
      (ensure_field "department" kvs))) "department" = some (.str "UNKNOWN") := by
    rw [getKey_ensure_field_ne _ _ _ (by decide), getKey_ensure_field_ne _ _ _ (by decide)]
    exact getKey_ensure_field_of_none _ _ h
  exact coerce_department_of_invalid _ _ hE (by decide)

theorem getKey_validate_priority_of_none (ts : String) (kvs : List (String × Json))
    (h : getKey kvs "priority" = none) :
    getKey (validate_and_enhance_obj ts kvs) "priority" = some (.str "MEDIUM") := by
  unfold validate_and_enhance_obj
  rw [getKey_setKey_ne _ _ _ _ (by decide), getKey_setKey_ne _ _ _ _ (by decide),
    ensure_and_coerce_eq]
  have hE : getKey (coerce_department (ensure_field "description" (ensure_field "priority"
      (ensure_field "department" kvs)))) "priority" = some (.str "UNKNOWN") := by
    rw [getKey_coerce_department_ne _ _ (by decide), getKey_ensure_field_ne _ _ _ (by decide)]
    refine getKey_ensure_field_of_none _ _ ?_
    rw [getKey_ensure_field_ne _ _ _ (by decide)]
    exact h
  exact coerce_priority_of_invalid _ _ hE (by decide)

theorem getKey_validate_description_of_none (ts : String) (kvs : List (String × Json))
    (h : getKey kvs "description" = none) :
    getKey (validate_and_enhance_obj ts kvs) "description" = some (.str "UNKNOWN") := by
  unfold validate_and_enhance_obj
  rw [getKey_setKey_ne _ _ _ _ (by decide), getKey_setKey_ne _ _ _ _ (by decide),
    ensure_and_coerce_eq, getKey_coerce_priority_ne _ _ (by decide),
    getKey_coerce_department_ne _ _ (by decide)]
  refine getKey_ensure_field_of_none _ _ ?_
  rw [getKey_ensure_field_ne _ _ _ (by decide), getKey_ensure_field_ne _ _ _ (by decide)]
  exact h

theorem validate_erase_timestamp (ts : String) (kvs : List (String × Json)) :
    eraseKey (validate_and_enhance_obj ts kvs) "timestamp" =
      setKey (eraseKey (ensure_and_coerce kvs) "timestamp") "status" (.str "PENDING") := by
  unfold validate_and_enhance_obj
  rw [eraseKey_setKey_ne _ _ _ _ (by decide), eraseKey_setKey_self]

/-! ## The claims -/

/-- C1: the spec requires that an unparsable reply with no
negative-signal phrase yields a Fallback Record and that this path
never raises.  In the code the path always raises: the `timestamp`
entry of the dictionary literal in `_create_fallback_response`
evaluates `datetime.now()` with `datetime` not in scope (the sole
`from datetime import datetime`, line 252, is local to
`_validate_and_enhance_result`), so
the `NameError` escapes to the outer handler and the caller receives
the error string, not a record.  Shown here on the spec's own test
input, the 800-character text `"garbled nonsense" * 50`. -/
theorem c1_fallback_path_errors (ts : String) :
    process_response ts (String.join (List.replicate 50 "garbled nonsense")) =
      .error (.nameError "datetime") ∧
    analyze_image ts (.ok (String.join (List.replicate 50 "garbled nonsense"))) =
      .text "Error: Unable to analyze image - name \x27datetime\x27 is not defined" :=
  ⟨rfl, rfl⟩

/-- C2: every record that Validation/Enhancement returns carries a
department belonging to the closed department set and a priority
belonging to the four priority levels; out-of-set values were coerced
to the defaults. -/
theorem c2_department_priority_in_closed_sets (ts : String) (j : Json)
    (r : List (String × Json)) (h : validate_and_enhance_result ts j = .ok r) :
    (∃ d, getKey r "department" = some (.str d) ∧ d ∈ valid_departments) ∧
    (∃ p, getKey r "priority" = some (.str p) ∧ p ∈ valid_priorities) := by
  cases j with
  | obj kvs =>
    simp only [validate_and_enhance_result, Except.ok.injEq] at h
    subst h
    exact ⟨getKey_validate_department_mem ts kvs, getKey_validate_priority_mem ts kvs⟩
  | str s =>
    simp only [validate_and_enhance_result] at h
    split at h <;> exact Except.noConfusion h
  | null => exact Except.noConfusion h
  | bool b => exact Except.noConfusion h
  | int n => exact Except.noConfusion h
  | float q => exact Except.noConfusion h
  | arr xs => exact Except.noConfusion h

theorem c2_witness :
    (∃ d, getKey (validate_and_enhance_obj "2024-01-01T00:00:00" []) "department" =
        some (.str d) ∧ d ∈ valid_departments) ∧
    (∃ p, getKey (validate_and_enhance_obj "2024-01-01T00:00:00" []) "priority" =
        some (.str p) ∧ p ∈ valid_priorities) :=
  c2_department_priority_in_closed_sets "2024-01-01T00:00:00" (.obj []) _ rfl

/-- C3: normalizing the valid-JSON text with an unrecognized department
and priority and no description yields department `BUILDING` (the
default), priority `MEDIUM` and description the literal `"UNKNOWN"`;
in general a missing department ends as the default, a missing priority
as `MEDIUM`, and a missing description as `"UNKNOWN"`. -/
theorem c3_unknown_defaults_and_coercion :
    (∀ ts, analyze_image ts (.ok "\x7b\"department\":\"BOGUS\",\"priority\":\"SUPERHIGH\"\x7d") =
      .record [("department", .str "BUILDING"), ("priority", .str "MEDIUM"),
        ("description", .str "UNKNOWN"), ("timestamp", .str ts), ("status", .str "PENDING")]) ∧
    (∀ ts kvs, getKey kvs "department" = none →
      getKey (validate_and_enhance_obj ts kvs) "department" = some (.str "BUILDING")) ∧
    (∀ ts kvs, getKey kvs "priority" = none →
      getKey (validate_and_enhance_obj ts kvs) "priority" = some (.str "MEDIUM")) ∧
    (∀ ts kvs, getKey kvs "description" = none →
      getKey (validate_and_enhance_obj ts kvs) "description" = some (.str "UNKNOWN")) :=
  ⟨fun _ => rfl, getKey_validate_department_of_none, getKey_validate_priority_of_none,
   getKey_validate_description_of_none⟩

theorem c3_witness :
    getKey (validate_and_enhance_obj "2024-01-01T00:00:00" []) "description" =
      some (.str "UNKNOWN") :=
  c3_unknown_defaults_and_coercion.2.2.2 "2024-01-01T00:00:00" [] rfl

/-- C4: whenever the stripped reply equals the `NON_CIVIC_ISSUE`
sentinel or contains it as a substring, normalization returns the
no-issue sentinel result — before any parse is attempted — and in
particular on the two texts named by the spec. -/
theorem c4_sentinel_precedence :
    (∀ ts raw, (pyStrip raw = "NON_CIVIC_ISSUE" ∨
        strContains (pyStrip raw) "NON_CIVIC_ISSUE" = true) →
      process_response ts raw = .ok (.text nonIssueMessage)) ∧
    (∀ ts, process_response ts "NON_CIVIC_ISSUE" = .ok (.text nonIssueMessage)) ∧
    (∀ ts, process_response ts "some preamble NON_CIVIC_ISSUE trailing" =
      .ok (.text nonIssueMessage)) := by
  refine ⟨?_, fun _ => rfl, fun _ => rfl⟩
  intro ts raw h
  have hc : (pyStrip raw == "NON_CIVIC_ISSUE" ||
      strContains (pyStrip raw) "NON_CIVIC_ISSUE") = true := by
    rcases h with h | h
    · simp [h]
    · simp [h]
  simp [process_response, hc]

theorem c4_witness :
    process_response "2024-01-01T00:00:00" "report: NON_CIVIC_ISSUE here" =
      .ok (.text nonIssueMessage) :=
  c4_sentinel_precedence.1 "2024-01-01T00:00:00" "report: NON_CIVIC_ISSUE here"
    (Or.inr (by decide))

/-- C5: a reply wrapped in a JSON markdown fence is stripped of the
7-character leading marker and 3-character trailing marker and parsed;
in-set department and priority values pass through validation
unchanged, and the record gains a fresh timestamp and `PENDING`
status. -/
theorem c5_fence_stripping_and_passthrough :
    (∀ ts, analyze_image ts
        (.ok "```json\n\x7b\"department\":\"FIRE\",\"priority\":\"CRITICAL\",\"description\":\"x\"\x7d\n```") =
      .record [("department", .str "FIRE"), ("priority", .str "CRITICAL"),
        ("description", .str "x"), ("timestamp", .str ts), ("status", .str "PENDING")]) ∧
    (∀ ts kvs d, getKey kvs "department" = some (.str d) → d ∈ valid_departments →
      getKey (validate_and_enhance_obj ts kvs) "department" = some (.str d)) ∧
    (∀ ts kvs p, getKey kvs "priority" = some (.str p) → p ∈ valid_priorities →
      getKey (validate_and_enhance_obj ts kvs) "priority" = some (.str p)) :=
  ⟨fun _ => rfl, getKey_validate_department_of_valid, getKey_validate_priority_of_valid⟩

theorem c5_witness :
    getKey (validate_and_enhance_obj "2024-01-01T00:00:00" [("department", .str "FIRE")])
      "department" = some (.str "FIRE") :=
  c5_fence_stripping_and_passthrough.2.1 "2024-01-01T00:00:00"
    [("department", .str "FIRE")] "FIRE" rfl (by decide)

/-- C6: when structured parsing fails and the lower-cased original raw
text contains one of the negative-signal phrases, normalization
returns the no-issue sentinel result with the same fixed message as
the sentinel branch, not a Fallback Record. -/
theorem c6_negative_signal_on_parse_failure (ts raw : String)
    (hparse : json_loads (stripFences (pyStrip raw)) = none)
    (hneg : hasNegSignal raw = true) :
    process_response ts raw = .ok (.text nonIssueMessage) := by
  by_cases hs : (pyStrip raw == "NON_CIVIC_ISSUE" ||
      strContains (pyStrip raw) "NON_CIVIC_ISSUE") = true
  · simp [process_response, hs]
  · rw [Bool.not_eq_true] at hs
    simp [process_response, hs, hparse, hneg]

theorem c6_witness :
    process_response "2024-01-01T00:00:00"
      "I cannot identify any municipal issue, this looks like a personal item" =
      .ok (.text nonIssueMessage) :=
  c6_negative_signal_on_parse_failure "2024-01-01T00:00:00"
    "I cannot identify any municipal issue, this looks like a personal item" rfl rfl

/-- C7: the analysis boundary never propagates an exception: a missing
(or empty, hence falsy) API key yields the descriptive error string
with the model stage never consulted; an exception in the abstracted
image-load/model stage or escaping the normalization flow becomes the
`"Error: Unable to analyze image - ..."` string; an exception in the
detector construction becomes the structured error object. -/
theorem c7_outer_boundary_error_handling :
    (∀ ctor ts step, detect_municipal_issue none ctor ts step =
      .text "Error: Google Gemini API key not found.") ∧
    (∀ ctor ts step, detect_municipal_issue (some "") ctor ts step =
      .text "Error: Google Gemini API key not found.") ∧
    (∀ ts e, analyze_image ts (.error e) =
      .text ("Error: Unable to analyze image - " ++ PyErr.str e)) ∧
    (∀ ts raw e, process_response ts raw = .error e →
      analyze_image ts (.ok raw) =
        .text ("Error: Unable to analyze image - " ++ PyErr.str e)) ∧
    (∀ k ctorErr ts step, k ≠ "" →
      detect_municipal_issue (some k) (.error ctorErr) ts step =
        .errObj (PyErr.str ctorErr)
          "Failed to analyze the image. Please check the URL or server logs.") := by
  refine ⟨fun _ _ _ => rfl, fun _ _ _ => rfl, fun _ _ => rfl, ?_, ?_⟩
  · intro ts raw e h
    simp [analyze_image, h]
  · intro k ce ts step hk
    simp [detect_municipal_issue, hk]

theorem c7_witness :
    analyze_image "2024-01-01T00:00:00" (.ok "[1]") =
      .text ("Error: Unable to analyze image - " ++
        PyErr.str (.typeError "list indices must be integers or slices, not str")) ∧
    detect_municipal_issue (some "key") (.error (.other "boom")) "2024-01-01T00:00:00"
        (.ok "x") =
      .errObj (PyErr.str (.other "boom"))
        "Failed to analyze the image. Please check the URL or server logs." :=
  ⟨c7_outer_boundary_error_handling.2.2.2.1 "2024-01-01T00:00:00" "[1]" _ rfl,
   c7_outer_boundary_error_handling.2.2.2.2 "key" (.other "boom") "2024-01-01T00:00:00"
     (.ok "x") (by decide)⟩

/-- C8: Validation/Enhancement touches only `department`, `priority`,
`description` (and those only when missing or out-of-set), `timestamp`
(always overwritten with the current time) and `status` (always
`PENDING`); every other model-supplied key keeps its value. -/
theorem c8_validation_frame :
    (∀ ts kvs k,
      k ∉ (["department", "priority", "description", "timestamp", "status"] : List String) →
      getKey (validate_and_enhance_obj ts kvs) k = getKey kvs k) ∧
    (∀ ts kvs, getKey (validate_and_enhance_obj ts kvs) "timestamp" = some (.str ts)) ∧
    (∀ ts kvs, getKey (validate_and_enhance_obj ts kvs) "status" = some (.str "PENDING")) ∧
    (∀ ts kvs v, getKey kvs "description" = some v →
      getKey (validate_and_enhance_obj ts kvs) "description" = some v) ∧
    (∀ ts kvs d, getKey kvs "department" = some (.str d) → d ∈ valid_departments →
      getKey (validate_and_enhance_obj ts kvs) "department" = some (.str d)) ∧
    (∀ ts kvs p, getKey kvs "priority" = some (.str p) → p ∈ valid_priorities →
      getKey (validate_and_enhance_obj ts kvs) "priority" = some (.str p)) :=
  ⟨getKey_validate_other, getKey_validate_timestamp, getKey_validate_status,
   getKey_validate_description_of_some, getKey_validate_department_of_valid,
   getKey_validate_priority_of_valid⟩

theorem c8_witness :
    getKey (validate_and_enhance_obj "2024-01-01T00:00:00"
        [("confidence_score", .float (0.9 : Rat))]) "confidence_score" =
      getKey [("confidence_score", .float (0.9 : Rat))] "confidence_score" :=
  c8_validation_frame.1 "2024-01-01T00:00:00"
    [("confidence_score", .float (0.9 : Rat))] "confidence_score" (by decide)

/-- C9: normalization is deterministic up to the timestamp: the same
raw text processed at two different times yields the same outcome with
identical fields once the `timestamp` field is forgotten. -/
theorem c9_deterministic_up_to_timestamp (raw ts₁ ts₂ : String) :
    stripTimestamp (process_response ts₁ raw) =
      stripTimestamp (process_response ts₂ raw) := by
  simp only [process_response]
  by_cases hs : (pyStrip raw == "NON_CIVIC_ISSUE" ||
      strContains (pyStrip raw) "NON_CIVIC_ISSUE") = true
  · simp [hs]
  · rw [Bool.not_eq_true] at hs
    simp only [hs, Bool.false_eq_true, if_false]
    cases hj : json_loads (stripFences (pyStrip raw)) with
    | none =>
      cases hneg : hasNegSignal raw <;>
        simp [hneg, create_fallback_response, stripTimestamp, Except.map]
    | some j =>
      cases j with
      | obj kvs =>
        simp [validate_and_enhance_result, Except.map, stripTimestamp,
          validate_erase_timestamp]
      | str s =>
        simp [validate_and_enhance_result, Except.map, stripTimestamp]
      | null => rfl
      | bool b => rfl
      | int n => rfl
      | float q => rfl
      | arr xs => rfl

/-- C10: a reply that parses as valid JSON but not as an object yields
neither an IssueReport nor a Fallback Record: validation raises a
`TypeError` on the non-mapping value, which only the outermost handler
catches, so the caller receives a plain error string. -/
theorem c10_non_object_parse_error (ts raw : String) (j : Json)
    (hparse : json_loads (stripFences (pyStrip raw)) = some j)
    (hobj : ∀ kvs, j ≠ .obj kvs)
    (hs : (pyStrip raw == "NON_CIVIC_ISSUE" ||
      strContains (pyStrip raw) "NON_CIVIC_ISSUE") = false) :
    ∃ msg, process_response ts raw = .error (.typeError msg) ∧
      analyze_image ts (.ok raw) =
        .text ("Error: Unable to analyze image - " ++ msg) := by
  have hp : process_response ts raw = (validate_and_enhance_result ts j).map .record := by
    simp [process_response, hs, hparse]
  have hv : ∃ msg, validate_and_enhance_result ts j = .error (.typeError msg) := by
    cases j with
    | obj kvs => exact absurd rfl (hobj kvs)
    | str s =>
      simp only [validate_and_enhance_result]
      split
      · exact ⟨_, rfl⟩
      · exact ⟨_, rfl⟩
    | null => exact ⟨_, rfl⟩
    | bool b => exact ⟨_, rfl⟩
    | int n => exact ⟨_, rfl⟩
    | float q => exact ⟨_, rfl⟩
    | arr xs => exact ⟨_, rfl⟩
  obtain ⟨msg, hmsg⟩ := hv
  refine ⟨msg, ?_, ?_⟩
  · rw [hp, hmsg]
    rfl
  · simp [analyze_image, hp, hmsg, PyErr.str, Except.map]

theorem c10_witness :
    ∃ msg, process_response "2024-01-01T00:00:00" "[1, 2]" = .error (.typeError msg) ∧
      analyze_image "2024-01-01T00:00:00" (.ok "[1, 2]") =
        .text ("Error: Unable to analyze image - " ++ msg) :=
  c10_non_object_parse_error "2024-01-01T00:00:00" "[1, 2]" (.arr [.int 1, .int 2])
    rfl (fun _ h => Json.noConfusion h) rfl

end AMC
